import Mathlib

/-!
Shallow embedding of the m3a desktop-automation core: the multi-monitor
coordinate model (`pydesktop/screen.py`, `pydesktop/mouse.py`), the keyboard
injection layer (`pydesktop/keyboard.py`), the action dispatch engine
(`agent/executor.py`) and the step-termination flag of the agent loop
(`agent/core.py`).

External OS services (mss screen capture, pynput input injection) are modelled
at their interface boundary: a monitor topology is passed in explicitly as the
list `sct.monitors` (entry 0 being mss's all-monitors virtual entry), and
primitive input calls are recorded as an ordered trace of `Prim` events instead
of being performed.  Machine state the Python code reads from the OS at call
time (the monitor list) becomes an explicit argument; everything else is a
direct translation of the source.
-/

namespace M3A

/-- One entry of mss's `sct.monitors` list: a rectangle in global
virtual-desktop coordinates.  Entry 0 of the list is the virtual entry covering
all monitors combined; entry i+1 is physical screen i.  The same shape is used
for the `monitor_dict` handed to `sct.grab` in `screen.screenshot`. -/
structure MssMonitor where
  left : Int
  top : Int
  width : Int
  height : Int
  deriving Repr, DecidableEq

/-- Errors raised by the translated code.  Python exception classes and
messages are collapsed to structured variants. -/
inductive Err where
  /-- `ValueError("Invalid element index: {i}")` from `ActionExecutor._get_coords`. -/
  | invalidIndex (i : Int)
  /-- `ValueError("Action requires either index or x,y coordinates")`. -/
  | missingTarget
  /-- `IndexError("Screen {s} not found. Available screens: 0-{maxValid}")`
  from `screen._get_monitor`. -/
  | screenNotFound (s : Int) (maxValid : Int)
  /-- A raw Python `IndexError` from indexing `sct.monitors` with a negative
  index below `-len`. -/
  | listIndexOutOfRange
  /-- `ValueError("Unknown key: ...")` from `keyboard._parse_key`. -/
  | unknownKey (k : String)
  /-- `ValueError("Unknown button: ...")` from `mouse._get_button`. -/
  | unknownButton (b : String)
  /-- `ValueError("Both x and y must be specified, or neither.")` from `mouse.click`. -/
  | bothXY
  /-- Python `AttributeError` from calling a method on `None`
  (e.g. `action.direction.lower()` when `direction` is absent). -/
  | attributeErrorNone
  /-- Python `TypeError` from passing `None` where a concrete value is required
  (e.g. `hotkey(*action.keys)` with `keys = None`, or typing `None`). -/
  | typeErrorNone
  deriving Repr, DecidableEq

/-- Python list indexing semantics: `l[i]` supports negative indices counted
from the end; out-of-range access returns `none` (an `IndexError` in Python). -/
def pyGet (l : List α) (i : Int) : Option α :=
  let j : Int := if 0 ≤ i then i else (l.length : Int) + i
  if 0 ≤ j ∧ j < (l.length : Int) then l.get? j.toNat else none

/-- Python `str.lower()`, character-wise.  The source only lowercases ASCII
key names and scroll directions. -/
def pyLower (s : String) : String := ⟨s.data.map Char.toLower⟩

namespace screen

/-- `screen._get_monitor`: resolve a screen index to an mss monitor entry.
`none` means the all-monitors virtual entry `sct.monitors[0]`; screen `s` maps
to `sct.monitors[s + 1]`.  Only `s + 1 >= len(sct.monitors)` is rejected with
the formatted IndexError; any other index (including negative ones) goes
straight to the Python list access. -/
def get_monitor (scr : Option Int) (monitors : List MssMonitor) : Except Err MssMonitor :=
  match scr with
  | none =>
    match pyGet monitors 0 with
    | some m => .ok m
    | none => .error .listIndexOutOfRange
  | some s =>
    let mssIndex := s + 1
    if (monitors.length : Int) ≤ mssIndex then
      .error (.screenNotFound s ((monitors.length : Int) - 2))
    else
      match pyGet monitors mssIndex with
      | some m => .ok m
      | none => .error .listIndexOutOfRange

/-- `screen.get_screen_size`: (width, height) of a screen. -/
def get_screen_size (scr : Int) (monitors : List MssMonitor) : Except Err (Int × Int) :=
  (get_monitor (some scr) monitors).map fun m => (m.width, m.height)

/-- `screen.get_screen_offset`: global origin (left, top) of a screen. -/
def get_screen_offset (scr : Int) (monitors : List MssMonitor) : Except Err (Int × Int) :=
  (get_monitor (some scr) monitors).map fun m => (m.left, m.top)

/-- `screen.screenshot`: returns the `monitor_dict` rectangle handed to
`sct.grab`.  The PIL image built from the grab result keeps the grab
rectangle's width and height, so the returned rectangle is the observable
content of the call.  A region is (x, y, w, h); with a concrete screen the
region origin is translated by that monitor's global offset, with `screen =
none` it is used as-is; with no region the selected monitor's own rectangle is
grabbed. -/
def screenshot (region : Option (Int × Int × Int × Int)) (scr : Option Int)
    (monitors : List MssMonitor) : Except Err MssMonitor :=
  match region with
  | some (x, y, w, h) =>
    match scr with
    | some _ =>
      match get_monitor scr monitors with
      | .ok mon => .ok ⟨x + mon.left, y + mon.top, w, h⟩
      | .error e => .error e
    | none => .ok ⟨x, y, w, h⟩
  | none =>
    match get_monitor scr monitors with
    | .ok mon => .ok ⟨mon.left, mon.top, mon.width, mon.height⟩
    | .error e => .error e

end screen

/-- A pynput key object: either a named special key (`Key.<attr>`) or a
character key (`KeyCode.from_char`). -/
inductive PKey where
  | special (attr : String)
  | char (c : Char)
  deriving Repr, DecidableEq

/-- One primitive input call performed against the external OS services
(pynput controllers, `time.sleep`, user-interaction callbacks).  The executor
and the pydesktop layer are specified by the ordered trace of these events. -/
inductive Prim where
  /-- `mouse_controller.position = (gx, gy)` (global coordinates). -/
  | setPosition (gx gy : Int)
  /-- `mouse_controller.click(btn, count)`. -/
  | clickButton (button : String) (count : Nat)
  /-- `mouse_controller.press(btn)`. -/
  | pressButton (button : String)
  /-- `mouse_controller.release(btn)`. -/
  | releaseButton (button : String)
  /-- Interpolated drag motion ending at global (gx, gy); the float-valued
  intermediate positions of `mouse.drag_to` are abstracted into one event. -/
  | dragMoves (gx gy : Int)
  /-- `mouse_controller.scroll(dx, dy)`. -/
  | scrollBy (dx dy : Int)
  /-- `keyboard_controller.press(k)`. -/
  | keyPress (k : PKey)
  /-- `keyboard_controller.release(k)`. -/
  | keyRelease (k : PKey)
  /-- `keyboard_controller.type(text)`. -/
  | typeText (text : String)
  /-- `time.sleep` of the given number of milliseconds. -/
  | sleepMs (ms : Nat)
  /-- The `ask_user_callback` exchange: question sent, reply received. -/
  | askUser (question : String) (response : String)
  /-- The `talk_to_user_callback` notification. -/
  | notifyUser (text : Option String)
  deriving Repr, DecidableEq

namespace keyboard

/-- `keyboard._KEY_MAP` as built by `_build_key_map`: key-name string to the
pynput `Key` attribute name.  The platform-specific tail entries are those
added when the attribute exists, as on Linux and Windows. -/
def KEY_MAP : List (String × String) :=
  [("ctrl", "ctrl"), ("control", "ctrl"), ("alt", "alt"), ("shift", "shift"),
   ("meta", "cmd"), ("win", "cmd"), ("windows", "cmd"), ("cmd", "cmd"),
   ("command", "cmd"), ("super", "cmd")]
  ++ (List.range 12).map (fun i => ("f" ++ toString (i + 1), "f" ++ toString (i + 1)))
  ++ [("enter", "enter"), ("return", "enter"), ("tab", "tab"), ("space", "space"),
      ("backspace", "backspace"), ("delete", "delete"), ("del", "delete"),
      ("escape", "esc"), ("esc", "esc"),
      ("up", "up"), ("down", "down"), ("left", "left"), ("right", "right"),
      ("home", "home"), ("end", "end"),
      ("pageup", "page_up"), ("page_up", "page_up"),
      ("pagedown", "page_down"), ("page_down", "page_down"),
      ("capslock", "caps_lock"), ("caps_lock", "caps_lock"),
      ("numlock", "num_lock"), ("num_lock", "num_lock"),
      ("scrolllock", "scroll_lock"), ("scroll_lock", "scroll_lock"),
      ("insert", "insert"),
      ("printscreen", "print_screen"), ("print_screen", "print_screen"),
      ("pause", "pause"), ("menu", "menu")]

/-- `keyboard._parse_key`: map-lookup on the lowercased name, else a single
character becomes a `KeyCode`, else `ValueError`. -/
def parse_key (key : String) : Except Err PKey :=
  let keyLower := pyLower key
  match KEY_MAP.lookup keyLower with
  | some attr => .ok (.special attr)
  | none =>
    match key.toList with
    | [c] => .ok (.char c)
    | _ => .error (.unknownKey key)

/-- `keyboard.press`: press and release one key. -/
def press (key : String) : Except Err (List Prim) :=
  (parse_key key).map fun k => [.keyPress k, .keyRelease k]

/-- `keyboard.hotkey`: parse every key first, then press all in listed order,
then release all in reverse order. -/
def hotkey (keys : List String) : Except Err (List Prim) :=
  match keys.mapM parse_key with
  | .error e => .error e
  | .ok parsed => .ok (parsed.map .keyPress ++ parsed.reverse.map .keyRelease)

/-- `keyboard.type_text` at the executor's call sites (`interval = 0`): one
`controller.type(text)` call. -/
def type_text (text : String) : List Prim := [.typeText text]

end keyboard

namespace mouse

/-- `mouse._to_global`: screen-local to global virtual-desktop coordinates;
`screen = none` means the coordinates are already global. -/
def to_global (x y : Int) (scr : Option Int) (monitors : List MssMonitor) :
    Except Err (Int × Int) :=
  match scr with
  | none => .ok (x, y)
  | some s => (screen.get_screen_offset s monitors).map fun o => (x + o.1, y + o.2)

/-- `mouse._from_global`: global virtual-desktop to screen-local coordinates. -/
def from_global (gx gy : Int) (scr : Option Int) (monitors : List MssMonitor) :
    Except Err (Int × Int) :=
  match scr with
  | none => .ok (gx, gy)
  | some s => (screen.get_screen_offset s monitors).map fun o => (gx - o.1, gy - o.2)

/-- `mouse._get_button`: validate a button name. -/
def get_button (button : String) : Except Err String :=
  if button = "left" ∨ button = "right" ∨ button = "middle" then .ok button
  else .error (.unknownButton button)

/-- `mouse.move_to`: move the cursor to screen-local (x, y). -/
def move_to (x y : Int) (scr : Int) (monitors : List MssMonitor) :
    Except Err (List Prim) :=
  (to_global x y (some scr) monitors).map fun g => [.setPosition g.1 g.2]

/-- `mouse.click`: resolve the button, optionally move to the given
coordinates, then click `count` times. -/
def click (button : String) (count : Nat) (x? y? : Option Int) (scr : Int)
    (monitors : List MssMonitor) : Except Err (List Prim) := do
  let btn ← get_button button
  match x?, y? with
  | some x, some y =>
    let g ← to_global x y (some scr) monitors
    pure [.setPosition g.1 g.2, .clickButton btn count]
  | none, none => pure [.clickButton btn count]
  | _, _ => throw .bothXY

/-- `mouse.click_at`. -/
def click_at (x y : Int) (button : String) (scr : Int) (monitors : List MssMonitor) :
    Except Err (List Prim) :=
  click button 1 (some x) (some y) scr monitors

/-- `mouse.double_click_at` (via `mouse.double_click`, `count = 2`). -/
def double_click_at (x y : Int) (button : String) (scr : Int)
    (monitors : List MssMonitor) : Except Err (List Prim) :=
  click button 2 (some x) (some y) scr monitors

/-- `mouse.right_click_at` (via `mouse.right_click`). -/
def right_click_at (x y : Int) (scr : Int) (monitors : List MssMonitor) :
    Except Err (List Prim) :=
  click "right" 1 (some x) (some y) scr monitors

/-- `mouse.drag_to` at the executor's call site: resolve the button, translate
the target to global, press, move (interpolated; abstracted into one event),
release.  The executor passes `action.x` / `action.y` unchecked; a `none`
there is the Python `TypeError` from `None + offset` inside `_to_global`,
raised after the screen offset has been resolved. -/
def drag_to (x? y? : Option Int) (button : String) (scr : Int)
    (monitors : List MssMonitor) : Except Err (List Prim) := do
  let btn ← get_button button
  let o ← screen.get_screen_offset scr monitors
  match x?, y? with
  | some x, some y =>
    pure [.pressButton btn, .dragMoves (x + o.1) (y + o.2), .releaseButton btn]
  | _, _ => throw .typeErrorNone

/-- `mouse.scroll`: vertical scroll first, then horizontal, each only when
nonzero. -/
def scroll (dx dy : Int) : List Prim :=
  (if dy ≠ 0 then [.scrollBy 0 dy] else []) ++ (if dx ≠ 0 then [.scrollBy dx 0] else [])

/-- `mouse.scroll_up`. -/
def scroll_up (amount : Int) : List Prim := scroll 0 amount

/-- `mouse.scroll_down`. -/
def scroll_down (amount : Int) : List Prim := scroll 0 (-amount)

end mouse

/-- `agent.models.UIElement`: one detected UI region. -/
structure UIElement where
  index : Int
  type : String
  content : String
  bbox : Int × Int × Int × Int
  center : Int × Int
  is_clickable : Bool := true
  deriving Repr, DecidableEq

/-- `agent.models.Action`: the loosely-typed action record parsed from the
model response; every field other than `action_type` is optional. -/
structure Action where
  action_type : String
  index : Option Int := none
  x : Option Int := none
  y : Option Int := none
  text : Option String := none
  direction : Option String := none
  key : Option String := none
  keys : Option (List String) := none
  goal_status : Option String := none
  question : Option String := none
  user_response : Option String := none
  screen : Option Int := none
  deriving Repr, DecidableEq

/-- The `ActionExecutor` instance state: the configured default screen and the
two user-interaction callbacks.  The ask callback returns the user's reply;
the talk callback only displays text, so just its presence is modelled. -/
structure ExecCfg where
  screen : Int := 0
  ask_user_callback : Option (String → String) := none
  talk_to_user_present : Bool := false

/-- The observable outcome of one `ActionExecutor.execute` call: the returned
continue flag (or the exception raised), the action object as it stands when
control returns (Python mutates it in place), and the ordered trace of
primitive calls performed before returning or raising. -/
structure ExecResult where
  result : Except Err Bool
  action : Action
  trace : List Prim
  deriving Repr

namespace ActionExecutor

/-- `ActionExecutor.SCROLL_AMOUNT`. -/
def SCROLL_AMOUNT : Int := 5

/-- `ActionExecutor.WAIT_SECONDS` (1.0 s), in milliseconds. -/
def WAIT_MS : Nat := 1000

/-- `ActionExecutor._get_screen`: the action's screen override, else the
configured default. -/
def get_screen (cfg : ExecCfg) (action : Action) : Int :=
  action.screen.getD cfg.screen

/-- `ActionExecutor._get_coords`: an element index resolves positionally to
`ui_elements[index].center` when `0 <= index < len(ui_elements)` and raises
`Invalid element index` otherwise; with no index, explicit x/y are used as-is;
with neither, `Action requires either index or x,y coordinates`. -/
def get_coords (action : Action) (ui_elements : List UIElement) :
    Except Err (Int × Int) :=
  match action.index with
  | some i =>
    if h : 0 ≤ i ∧ i < (ui_elements.length : Int) then
      .ok (ui_elements.get ⟨i.toNat, by omega⟩).center
    else
      .error (.invalidIndex i)
  | none =>
    match action.x, action.y with
    | some x, some y => .ok (x, y)
    | _, _ => .error .missingTarget

/-- The dispatch alternatives of `ActionExecutor.execute`, one per
`action_type` string test of the source's if/elif chain, plus the trailing
else branch for unrecognized kinds. -/
inductive ActionKind where
  | status | answer | talk_to_user | ask_user | wait
  | click | double_click | right_click | input_text | type
  | press_key | hotkey | scroll | drag | unknown
  deriving Repr, DecidableEq

/-- The if/elif chain of `ActionExecutor.execute` on `action.action_type`:
successive equality tests against distinct string literals (hence order
compatible with any evaluation order), factored into a classifier. -/
def classify (t : String) : ActionKind :=
  if t = "status" then .status
  else if t = "answer" then .answer
  else if t = "talk_to_user" then .talk_to_user
  else if t = "ask_user" then .ask_user
  else if t = "wait" then .wait
  else if t = "click" then .click
  else if t = "double_click" then .double_click
  else if t = "right_click" then .right_click
  else if t = "input_text" then .input_text
  else if t = "type" then .type
  else if t = "press_key" then .press_key
  else if t = "hotkey" then .hotkey
  else if t = "scroll" then .scroll
  else if t = "drag" then .drag
  else .unknown

/-- `ActionExecutor.execute`: dispatch one action.  Branches follow the
source; `True` means the run continues, `False` is a terminal action.  Console
prints are not modelled; `None` hitting a method call or an unpacking in the
source becomes the corresponding `Err` variant.  The source computes
`screen = self._get_screen(action)` after the five non-coordinate branches
have returned; the computation is pure, so hoisting it is unobservable. -/
def execute (cfg : ExecCfg) (action : Action) (ui_elements : List UIElement)
    (monitors : List MssMonitor) : ExecResult :=
  let scr := get_screen cfg action
  match classify action.action_type with
  | .status =>
    ⟨.ok false, action, []⟩
  | .answer =>
    ⟨.ok false, action, if cfg.talk_to_user_present then [.notifyUser action.text] else []⟩
  | .talk_to_user =>
    ⟨.ok true, action, if cfg.talk_to_user_present then [.notifyUser action.text] else []⟩
  | .ask_user =>
    let question := action.question.getD "Agent needs input"
    match cfg.ask_user_callback with
    | some cb =>
      let response := cb question
      ⟨.ok true, { action with user_response := some response },
        [.askUser question response]⟩
    | none => ⟨.ok true, action, []⟩
  | .wait =>
    ⟨.ok true, action, [.sleepMs WAIT_MS]⟩
  | .click =>
    match get_coords action ui_elements with
    | .error e => ⟨.error e, action, []⟩
    | .ok (x, y) =>
      match mouse.click_at x y "left" scr monitors with
      | .error e => ⟨.error e, action, []⟩
      | .ok prims => ⟨.ok true, action, prims⟩
  | .double_click =>
    match get_coords action ui_elements with
    | .error e => ⟨.error e, action, []⟩
    | .ok (x, y) =>
      match mouse.double_click_at x y "left" scr monitors with
      | .error e => ⟨.error e, action, []⟩
      | .ok prims => ⟨.ok true, action, prims⟩
  | .right_click =>
    match get_coords action ui_elements with
    | .error e => ⟨.error e, action, []⟩
    | .ok (x, y) =>
      match mouse.right_click_at x y scr monitors with
      | .error e => ⟨.error e, action, []⟩
      | .ok prims => ⟨.ok true, action, prims⟩
  | .input_text =>
    match action.index with
    | some _ =>
      match get_coords action ui_elements with
      | .error e => ⟨.error e, action, []⟩
      | .ok (x, y) =>
        match mouse.click_at x y "left" scr monitors with
        | .error e => ⟨.error e, action, []⟩
        | .ok clickPrims =>
          match action.text with
          | none => ⟨.error .typeErrorNone, action, clickPrims ++ [.sleepMs 300]⟩
          | some t =>
            ⟨.ok true, action, clickPrims ++ [.sleepMs 300] ++ keyboard.type_text t⟩
    | none =>
      match action.text with
      | none => ⟨.error .typeErrorNone, action, []⟩
      | some t => ⟨.ok true, action, keyboard.type_text t⟩
  | .type =>
    match action.text with
    | none => ⟨.error .typeErrorNone, action, []⟩
    | some t => ⟨.ok true, action, keyboard.type_text t⟩
  | .press_key =>
    match action.key with
    | none => ⟨.error .attributeErrorNone, action, []⟩
    | some k =>
      match keyboard.press k with
      | .error e => ⟨.error e, action, []⟩
      | .ok prims => ⟨.ok true, action, prims⟩
  | .hotkey =>
    match action.keys with
    | none => ⟨.error .typeErrorNone, action, []⟩
    | some ks =>
      match keyboard.hotkey ks with
      | .error e => ⟨.error e, action, []⟩
      | .ok prims => ⟨.ok true, action, prims⟩
  | .scroll =>
    match action.direction with
    | none => ⟨.error .attributeErrorNone, action, []⟩
    | some d =>
      let direction := pyLower d
      let moveRes : Except Err (List Prim) :=
        match action.index with
        | some _ =>
          match get_coords action ui_elements with
          | .error e => .error e
          | .ok (x, y) => mouse.move_to x y scr monitors
        | none => .ok []
      match moveRes with
      | .error e => ⟨.error e, action, []⟩
      | .ok movePrims =>
        let scrollPrims :=
          if direction = "up" then mouse.scroll_up SCROLL_AMOUNT
          else if direction = "down" then mouse.scroll_down SCROLL_AMOUNT
          else if direction = "left" then mouse.scroll (-SCROLL_AMOUNT) 0
          else if direction = "right" then mouse.scroll SCROLL_AMOUNT 0
          else []
        ⟨.ok true, action, movePrims ++ scrollPrims⟩
  | .drag =>
    match get_coords action ui_elements with
    | .error e => ⟨.error e, action, []⟩
    | .ok (x, y) =>
      match mouse.move_to x y scr monitors with
      | .error e => ⟨.error e, action, []⟩
      | .ok movePrims =>
        match mouse.drag_to action.x action.y "left" scr monitors with
        | .error e => ⟨.error e, action, movePrims⟩
        | .ok dragPrims => ⟨.ok true, action, movePrims ++ dragPrims⟩
  | .unknown =>
    ⟨.ok true, action, []⟩

end ActionExecutor

/-- `ComputerUseAgent.step`, steps 4 and 8: `is_terminal = not execute(...)`
and `done = is_terminal or action.action_type == "status"`, expressed over the
continue flag `execute` returned. -/
def step_done (cont : Bool) (action_type : String) : Bool :=
  !cont || (action_type == "status")

/-- Rectangle containment: `v.contains m` when `m` lies inside `v`.  Used to
state that the all-monitors virtual entry covers every physical monitor. -/
def MssMonitor.contains (v m : MssMonitor) : Prop :=
  v.left ≤ m.left ∧ v.top ≤ m.top ∧
  m.left + m.width ≤ v.left + v.width ∧ m.top + m.height ≤ v.top + v.height

instance (v m : MssMonitor) : Decidable (v.contains m) := by
  unfold MssMonitor.contains; infer_instance

/-- A concrete mss monitor topology for witnesses: the all-monitors virtual
entry followed by two 1920x1080 physical monitors side by side (valid screen
indices 0 and 1). -/
def demoMonitors : List MssMonitor :=
  [⟨0, 0, 3840, 1080⟩, ⟨0, 0, 1920, 1080⟩, ⟨1920, 0, 1920, 1080⟩]

/-- The first element of the spec's "click on Settings" scenario. -/
def elStart : UIElement :=
  { index := 0, type := "icon", content := "Start", bbox := (40, 50, 20, 20),
    center := (50, 60) }

/-- The second element of the spec's "click on Settings" scenario: its `index`
field is 2 although it sits at list position 1. -/
def elSettings : UIElement :=
  { index := 2, type := "icon", content := "Settings", bbox := (490, 390, 20, 20),
    center := (500, 400) }

/-- The element list of the spec's "click on Settings" scenario: two elements,
whose `index` fields are 0 and 2. -/
def settingsElements : List UIElement := [elStart, elSettings]

/-- The string each dispatch alternative of `execute` tests
`action.action_type` against (`""` for the trailing else branch). -/
def kindName : ActionExecutor.ActionKind → String
  | .status => "status"
  | .answer => "answer"
  | .talk_to_user => "talk_to_user"
  | .ask_user => "ask_user"
  | .wait => "wait"
  | .click => "click"
  | .double_click => "double_click"
  | .right_click => "right_click"
  | .input_text => "input_text"
  | .type => "type"
  | .press_key => "press_key"
  | .hotkey => "hotkey"
  | .scroll => "scroll"
  | .drag => "drag"
  | .unknown => ""

/-- Executor configuration with an ask-user callback that always replies
"yes"; used to witness the `ask_user` mutation. -/
def askCfg : ExecCfg := { ask_user_callback := some fun _ => "yes" }

/-- A concrete `ask_user` action. -/
def askAction : Action := { action_type := "ask_user", question := some "Proceed?" }

/-- Helper: `_get_coords` with an out-of-range index raises `Invalid element
index` regardless of the rest of the action. -/
theorem get_coords_invalid (a : Action) (els : List UIElement) (i : Int)
    (hi : a.index = some i) (h : ¬(0 ≤ i ∧ i < (els.length : Int))) :
    ActionExecutor.get_coords a els = .error (.invalidIndex i) := by
  unfold ActionExecutor.get_coords
  rw [hi]
  exact dif_neg h

/-- Helper: `_get_coords` with an in-range index returns the centre of the
element at that list position. -/
theorem get_coords_valid (a : Action) (els : List UIElement) (i : Int)
    (hi : a.index = some i) (h0 : 0 ≤ i) (hN : i < (els.length : Int)) :
    ActionExecutor.get_coords a els = .ok (els.get ⟨i.toNat, by omega⟩).center := by
  unfold ActionExecutor.get_coords
  rw [hi]
  exact dif_pos ⟨h0, hN⟩

/-- Helper: `_get_monitor` on a nonempty monitor list with screen `-1` passes
the upper-bound check and lands on `monitors[0]`, the virtual entry. -/
theorem get_monitor_neg_one (v : MssMonitor) (rest : List MssMonitor) :
    screen.get_monitor (some (-1)) (v :: rest) = .ok v := by
  simp [screen.get_monitor, pyGet]

/-- C5: for every monitor index whose offset lookup succeeds,
`_from_global` inverts `_to_global` exactly: converting a screen-local pixel
coordinate to global and back is the identity translation. -/
theorem c5_to_global_from_global_roundtrip (x y s gx gy : Int)
    (mons : List MssMonitor)
    (h : mouse.to_global x y (some s) mons = .ok (gx, gy)) :
    mouse.from_global gx gy (some s) mons = .ok (x, y) := by
  simp only [mouse.to_global] at h
  simp only [mouse.from_global]
  cases ho : screen.get_screen_offset s mons with
  | error e => rw [ho] at h; simp [Except.map] at h
  | ok o =>
    rw [ho] at h
    simp only [Except.map, Except.ok.injEq, Prod.mk.injEq] at h
    obtain ⟨hx, hy⟩ := h
    simp only [Except.map, Except.ok.injEq, Prod.mk.injEq]
    omega

/-- C5 witness: roundtrip at (500, 400) on screen 1 of the demo topology. -/
theorem c5_to_global_from_global_roundtrip_witness :
    mouse.from_global 2420 400 (some 1) demoMonitors = .ok (500, 400) :=
  c5_to_global_from_global_roundtrip 500 400 1 2420 400 demoMonitors rfl

/-- C6 counterexample: screen `-1` does not name an existing monitor of the
demo topology (valid indices are 0 and 1), yet the monitor lookup, the offset
and size queries and a capture all succeed, operating on the all-monitors
virtual entry instead of raising the out-of-range error. -/
theorem c6_negative_screen_counterexample :
    screen.get_monitor (some (-1)) demoMonitors = .ok ⟨0, 0, 3840, 1080⟩
    ∧ screen.get_screen_offset (-1) demoMonitors = .ok (0, 0)
    ∧ screen.get_screen_size (-1) demoMonitors = .ok (3840, 1080)
    ∧ screen.screenshot none (some (-1)) demoMonitors = .ok ⟨0, 0, 3840, 1080⟩
    ∧ ¬(0 ≤ (-1 : Int) ∧ (-1 : Int) ≤ (demoMonitors.length : Int) - 2) := by
  exact ⟨rfl, rfl, rfl, rfl, by decide⟩

/-- C6 (amended): a monitor index too large for the topology (`s + 1 >=
len(sct.monitors)`, i.e. `s >= monitor count`) makes offset lookup, size
lookup and capture fail with the IndexError naming the valid range
`0 .. len(sct.monitors) - 2`; negative indices, however, slip past the check
(see the counterexample). -/
theorem c6_screen_out_of_range (s : Int) (mons : List MssMonitor)
    (h : (mons.length : Int) ≤ s + 1) :
    screen.get_monitor (some s) mons
        = .error (.screenNotFound s ((mons.length : Int) - 2))
    ∧ screen.get_screen_offset s mons
        = .error (.screenNotFound s ((mons.length : Int) - 2))
    ∧ screen.get_screen_size s mons
        = .error (.screenNotFound s ((mons.length : Int) - 2))
    ∧ screen.screenshot none (some s) mons
        = .error (.screenNotFound s ((mons.length : Int) - 2)) := by
  have hm : screen.get_monitor (some s) mons
      = .error (.screenNotFound s ((mons.length : Int) - 2)) := by
    simp only [screen.get_monitor]
    rw [if_pos h]
  refine ⟨hm, ?_, ?_, ?_⟩
  · simp only [screen.get_screen_offset, hm]; rfl
  · simp only [screen.get_screen_size, hm]; rfl
  · simp only [screen.screenshot, hm]

/-- C6 (amended) witness: screen index 2 on the two-monitor demo topology. -/
theorem c6_screen_out_of_range_witness :
    screen.get_monitor (some 2) demoMonitors = .error (.screenNotFound 2 1)
    ∧ screen.get_screen_offset 2 demoMonitors = .error (.screenNotFound 2 1)
    ∧ screen.get_screen_size 2 demoMonitors = .error (.screenNotFound 2 1)
    ∧ screen.screenshot none (some 2) demoMonitors = .error (.screenNotFound 2 1) :=
  c6_screen_out_of_range 2 demoMonitors (by decide)

/-- C10 counterexample: screen `-2` on the demo topology silently resolves to
the *last physical monitor* (Python negative indexing into `sct.monitors`),
not to the all-monitors virtual desktop entry `monitors[0]`. -/
theorem c10_negative_screen_counterexample :
    screen.get_monitor (some (-2)) demoMonitors = .ok ⟨1920, 0, 1920, 1080⟩
    ∧ pyGet demoMonitors 0 = some ⟨0, 0, 3840, 1080⟩
    ∧ (⟨1920, 0, 1920, 1080⟩ : MssMonitor) ≠ ⟨0, 0, 3840, 1080⟩ := by
  exact ⟨rfl, rfl, by decide⟩

/-- C10 (amended): a negative monitor index is never rejected by the range
check — the formatted out-of-range error cannot occur for it.  Screen -1
silently resolves to `monitors[0]`, the all-monitors virtual desktop entry, so
offset, size and screenshot queries with -1 succeed and operate on the whole
virtual desktop.  Any other negative s with `-(len+1) <= s <= -2` resolves
through Python negative indexing to the entry at position `len + s + 1` — so
-2 is the last physical monitor and the wraparound index `-(len+1)` lands on
the virtual entry again — and `s < -(len+1)` raises the raw IndexError from
the list access (len counting the mss entries, virtual one included). -/
theorem c10_negative_screen_lookup (s : Int) (v : MssMonitor) (rest : List MssMonitor)
    (hneg : s < 0) :
    (∀ mx : Int, screen.get_monitor (some s) (v :: rest) ≠ .error (.screenNotFound s mx))
    ∧ (s = -1 →
        screen.get_monitor (some s) (v :: rest) = .ok v
        ∧ screen.get_screen_offset s (v :: rest) = .ok (v.left, v.top)
        ∧ screen.get_screen_size s (v :: rest) = .ok (v.width, v.height)
        ∧ screen.screenshot none (some s) (v :: rest)
            = .ok ⟨v.left, v.top, v.width, v.height⟩)
    ∧ (∀ (h2 : s ≤ -2) (hge : -(((v :: rest).length : Int) + 1) ≤ s),
        screen.get_monitor (some s) (v :: rest)
          = .ok ((v :: rest).get ⟨(((v :: rest).length : Int) + (s + 1)).toNat, by omega⟩))
    ∧ (s = -(((v :: rest).length : Int) + 1) →
        screen.get_monitor (some s) (v :: rest) = .ok v)
    ∧ (s < -(((v :: rest).length : Int) + 1) →
        screen.get_monitor (some s) (v :: rest) = .error .listIndexOutOfRange) := by
  have hupper : ¬ (((v :: rest).length : Int) ≤ s + 1) := by
    simp only [List.length_cons]
    omega
  have hC : ∀ (h2 : s ≤ -2) (hge : -(((v :: rest).length : Int) + 1) ≤ s),
      screen.get_monitor (some s) (v :: rest)
        = .ok ((v :: rest).get ⟨(((v :: rest).length : Int) + (s + 1)).toNat, by omega⟩) := by
    intro h2 hge
    simp only [screen.get_monitor]
    rw [if_neg hupper]
    simp only [pyGet]
    rw [if_neg (show ¬ (0:Int) ≤ s + 1 by omega)]
    rw [if_pos (show (0:Int) ≤ ((v :: rest).length : Int) + (s + 1)
        ∧ ((v :: rest).length : Int) + (s + 1) < ((v :: rest).length : Int) by omega)]
    rw [List.get?_eq_get (by omega)]
  refine ⟨?_, ?_, hC, ?_, ?_⟩
  · intro mx
    simp only [screen.get_monitor]
    rw [if_neg hupper]
    cases hp : pyGet (v :: rest) (s + 1) <;> simp [hp]
  · intro hs
    subst hs
    have hm := get_monitor_neg_one v rest
    refine ⟨hm, ?_, ?_, ?_⟩
    · simp only [screen.get_screen_offset, hm]; rfl
    · simp only [screen.get_screen_size, hm]; rfl
    · simp only [screen.screenshot, hm]
  · intro hs
    have hL1 : (1:Int) ≤ ((v :: rest).length : Int) := by
      simp only [List.length_cons]
      push_cast
      omega
    have h2 : s ≤ -2 := by omega
    have hge : -(((v :: rest).length : Int) + 1) ≤ s := le_of_eq hs.symm
    rw [hC h2 hge]
    have hz : (((v :: rest).length : Int) + (s + 1)).toNat = 0 := by omega
    have hfin : (⟨(((v :: rest).length : Int) + (s + 1)).toNat, by omega⟩
        : Fin (v :: rest).length) = ⟨0, by simp⟩ := Fin.ext hz
    rw [hfin]
    rfl
  · intro hlt
    simp only [screen.get_monitor]
    rw [if_neg hupper]
    simp only [pyGet]
    rw [if_neg (show ¬ (0:Int) ≤ s + 1 by omega)]
    rw [if_neg (show ¬ ((0:Int) ≤ ((v :: rest).length : Int) + (s + 1)
        ∧ ((v :: rest).length : Int) + (s + 1) < ((v :: rest).length : Int)) by
      simp only [List.length_cons] at hlt ⊢
      omega)]

/-- C10 (amended) witness: on the three-entry demo topology, screen -4 (the
wraparound index -(len+1)) resolves to the virtual all-monitors entry, and
screen -5 raises the raw IndexError. -/
theorem c10_negative_screen_lookup_witness :
    screen.get_monitor (some (-4)) demoMonitors = .ok ⟨0, 0, 3840, 1080⟩
    ∧ screen.get_monitor (some (-5)) demoMonitors = .error .listIndexOutOfRange :=
  ⟨(c10_negative_screen_lookup (-4) ⟨0, 0, 3840, 1080⟩
      [⟨0, 0, 1920, 1080⟩, ⟨1920, 0, 1920, 1080⟩] (by decide)).2.2.2.1 (by decide),
   (c10_negative_screen_lookup (-5) ⟨0, 0, 3840, 1080⟩
      [⟨0, 0, 1920, 1080⟩, ⟨1920, 0, 1920, 1080⟩] (by decide)).2.2.2.2 (by decide)⟩

/-- C8: capturing a sub-region (x, y, w, h) on a concrete monitor translates
the region origin by that monitor's global offset while the grabbed rectangle
(and hence the returned image) keeps the untranslated width and height; with
the `none` screen sentinel the region origin is used as-is in global
coordinates; and a capture with no region and no screen grabs `monitors[0]`,
the entry covering the union of all physical monitors. -/
theorem c8_screenshot_region_translation (x y w h s : Int)
    (monitors : List MssMonitor) (mon : MssMonitor)
    (hmon : screen.get_monitor (some s) monitors = .ok mon)
    (v : MssMonitor) (rest : List MssMonitor) (hm : monitors = v :: rest)
    (hcover : ∀ m ∈ rest, v.contains m) :
    screen.screenshot (some (x, y, w, h)) (some s) monitors
        = .ok ⟨x + mon.left, y + mon.top, w, h⟩
    ∧ screen.screenshot (some (x, y, w, h)) none monitors = .ok ⟨x, y, w, h⟩
    ∧ ∃ u, screen.screenshot none none monitors = .ok u ∧ u = v
        ∧ ∀ m ∈ rest, u.contains m := by
  refine ⟨?_, rfl, v, ?_, rfl, hcover⟩
  · simp only [screen.screenshot, hmon]
  · subst hm
    simp [screen.screenshot, screen.get_monitor, pyGet]

/-- C8 witness: region (100, 100, 400, 300) on screen 1 of the demo topology
is grabbed at global origin (2020, 100) with size 400 x 300; the same region
with the `none` sentinel is grabbed at (100, 100); the regionless global
capture grabs the virtual entry, which contains both physical monitors. -/
theorem c8_screenshot_region_translation_witness :
    screen.screenshot (some (100, 100, 400, 300)) (some 1) demoMonitors
        = .ok ⟨2020, 100, 400, 300⟩
    ∧ screen.screenshot (some (100, 100, 400, 300)) none demoMonitors
        = .ok ⟨100, 100, 400, 300⟩
    ∧ ∃ u, screen.screenshot none none demoMonitors = .ok u
        ∧ u = ⟨0, 0, 3840, 1080⟩
        ∧ ∀ m ∈ [(⟨0, 0, 1920, 1080⟩ : MssMonitor), ⟨1920, 0, 1920, 1080⟩],
            u.contains m :=
  c8_screenshot_region_translation 100 100 400 300 1 demoMonitors
    ⟨1920, 0, 1920, 1080⟩ rfl ⟨0, 0, 3840, 1080⟩
    [⟨0, 0, 1920, 1080⟩, ⟨1920, 0, 1920, 1080⟩] rfl (by decide)

/-- C7: `keyboard.hotkey` with keys that all parse injects the presses in the
listed order k1 .. kn and then the releases in exactly the reverse order
kn .. k1 — event j of the trace is the press of key j, and event n + j is the
release of key n - 1 - j, so the first-pressed key is the last released. -/
theorem c7_hotkey_press_reverse_release (keys : List String) (parsed : List PKey)
    (hp : keys.mapM keyboard.parse_key = .ok parsed) :
    ∃ evs, keyboard.hotkey keys = .ok evs
      ∧ evs.length = 2 * parsed.length
      ∧ (∀ j (hj : j < parsed.length),
          evs[j]? = some (.keyPress (parsed.get ⟨j, hj⟩)))
      ∧ (∀ j (hj : j < parsed.length),
          evs[parsed.length + j]?
            = some (.keyRelease (parsed.get ⟨parsed.length - 1 - j, by omega⟩))) := by
  refine ⟨parsed.map .keyPress ++ parsed.reverse.map .keyRelease, ?_, ?_, ?_, ?_⟩
  · unfold keyboard.hotkey
    rw [hp]
  · simp; omega
  · intro j hj
    rw [List.getElem?_append_left (by simpa using hj), List.getElem?_map,
      List.getElem?_eq_getElem hj]
    rfl
  · intro j hj
    rw [List.getElem?_append_right (by simp), List.length_map,
      Nat.add_sub_cancel_left, List.getElem?_map,
      List.getElem?_reverse (by simpa using hj),
      List.getElem?_eq_getElem (by omega)]
    rfl

/-- C7 witness: hotkey ctrl, shift, a presses ctrl, shift, a and releases a,
shift, ctrl. -/
theorem c7_hotkey_press_reverse_release_witness :
    ∃ evs, keyboard.hotkey ["ctrl", "shift", "a"] = .ok evs
      ∧ evs.length = 2 * ([PKey.special "ctrl", PKey.special "shift",
          PKey.char 'a'] : List PKey).length
      ∧ (∀ j (hj : j < ([PKey.special "ctrl", PKey.special "shift",
            PKey.char 'a'] : List PKey).length),
          evs[j]? = some (.keyPress (([PKey.special "ctrl",
            PKey.special "shift", PKey.char 'a'] : List PKey).get ⟨j, hj⟩)))
      ∧ (∀ j (hj : j < ([PKey.special "ctrl", PKey.special "shift",
            PKey.char 'a'] : List PKey).length),
          evs[([PKey.special "ctrl", PKey.special "shift",
            PKey.char 'a'] : List PKey).length + j]?
            = some (.keyRelease (([PKey.special "ctrl", PKey.special "shift",
                PKey.char 'a'] : List PKey).get
                ⟨([PKey.special "ctrl", PKey.special "shift",
                  PKey.char 'a'] : List PKey).length - 1 - j, by omega⟩))) :=
  c7_hotkey_press_reverse_release ["ctrl", "shift", "a"]
    [PKey.special "ctrl", PKey.special "shift", PKey.char 'a'] rfl


/-- Helper: whenever `classify` picks a named dispatch alternative, the action
type string is exactly the literal that alternative tests for. -/
theorem classify_name (t : String) :
    ActionExecutor.classify t = .unknown ∨ t = kindName (ActionExecutor.classify t) := by
  unfold ActionExecutor.classify
  by_cases h1 : t = "status"
  · rw [if_pos h1]; exact Or.inr h1
  rw [if_neg h1]
  by_cases h2 : t = "answer"
  · rw [if_pos h2]; exact Or.inr h2
  rw [if_neg h2]
  by_cases h3 : t = "talk_to_user"
  · rw [if_pos h3]; exact Or.inr h3
  rw [if_neg h3]
  by_cases h4 : t = "ask_user"
  · rw [if_pos h4]; exact Or.inr h4
  rw [if_neg h4]
  by_cases h5 : t = "wait"
  · rw [if_pos h5]; exact Or.inr h5
  rw [if_neg h5]
  by_cases h6 : t = "click"
  · rw [if_pos h6]; exact Or.inr h6
  rw [if_neg h6]
  by_cases h7 : t = "double_click"
  · rw [if_pos h7]; exact Or.inr h7
  rw [if_neg h7]
  by_cases h8 : t = "right_click"
  · rw [if_pos h8]; exact Or.inr h8
  rw [if_neg h8]
  by_cases h9 : t = "input_text"
  · rw [if_pos h9]; exact Or.inr h9
  rw [if_neg h9]
  by_cases h10 : t = "type"
  · rw [if_pos h10]; exact Or.inr h10
  rw [if_neg h10]
  by_cases h11 : t = "press_key"
  · rw [if_pos h11]; exact Or.inr h11
  rw [if_neg h11]
  by_cases h12 : t = "hotkey"
  · rw [if_pos h12]; exact Or.inr h12
  rw [if_neg h12]
  by_cases h13 : t = "scroll"
  · rw [if_pos h13]; exact Or.inr h13
  rw [if_neg h13]
  by_cases h14 : t = "drag"
  · rw [if_pos h14]; exact Or.inr h14
  rw [if_neg h14]
  exact Or.inl rfl

/-- Helper: the `status` and `answer` branches of `execute` return `False`. -/
theorem execute_terminal (cfg : ExecCfg) (a : Action) (els : List UIElement)
    (mons : List MssMonitor)
    (hk : ActionExecutor.classify a.action_type = .status
        ∨ ActionExecutor.classify a.action_type = .answer) :
    (ActionExecutor.execute cfg a els mons).result = .ok false := by
  unfold ActionExecutor.execute
  rcases hk with hk | hk <;> simp only [hk]

/-- Helper: no branch other than `status` and `answer` ever returns `False`:
every other branch returns `True` or raises. -/
theorem execute_never_false (cfg : ExecCfg) (a : Action) (els : List UIElement)
    (mons : List MssMonitor)
    (hk1 : ActionExecutor.classify a.action_type ≠ .status)
    (hk2 : ActionExecutor.classify a.action_type ≠ .answer) :
    (ActionExecutor.execute cfg a els mons).result ≠ .ok false := by
  unfold ActionExecutor.execute
  cases hkind : ActionExecutor.classify a.action_type
  case status => exact absurd hkind hk1
  case answer => exact absurd hkind hk2
  all_goals
    simp only [hkind]
    intro h
    revert h
    repeat' split
  all_goals simp

/-- Helper: the action object `execute` hands back differs from its argument
at most in the `user_response` field. -/
theorem execute_action_only_user_response (cfg : ExecCfg) (a : Action)
    (els : List UIElement) (mons : List MssMonitor) :
    (ActionExecutor.execute cfg a els mons).action
      = { a with user_response :=
            (ActionExecutor.execute cfg a els mons).action.user_response } := by
  unfold ActionExecutor.execute
  cases hkind : ActionExecutor.classify a.action_type
  all_goals
    simp only [hkind]
    repeat' split
  all_goals rfl

/-- Helper: outside the `ask_user`-with-callback case the action comes back
untouched. -/
theorem execute_action_unchanged (cfg : ExecCfg) (a : Action)
    (els : List UIElement) (mons : List MssMonitor)
    (hk : ActionExecutor.classify a.action_type ≠ .ask_user
        ∨ cfg.ask_user_callback = none) :
    (ActionExecutor.execute cfg a els mons).action = a := by
  unfold ActionExecutor.execute
  cases hkind : ActionExecutor.classify a.action_type
  case ask_user =>
    rcases hk with hk | hk
    · exact absurd hkind hk
    · simp only [hkind, hk]
  all_goals
    simp only [hkind]
    repeat' split
  all_goals rfl

/-- Helper: the `ask_user` branch with a callback present stores the callback
reply in `user_response`. -/
theorem execute_ask_user_sets_response (cfg : ExecCfg) (a : Action)
    (els : List UIElement) (mons : List MssMonitor) (cb : String → String)
    (hk : ActionExecutor.classify a.action_type = .ask_user)
    (hcb : cfg.ask_user_callback = some cb) :
    (ActionExecutor.execute cfg a els mons).action
      = { a with user_response := some (cb (a.question.getD "Agent needs input")) } := by
  unfold ActionExecutor.execute
  simp only [hk, hcb]

/-- C4: the continue flag `execute` returns is `false` exactly when the action
kind is `status` or `answer`; every other branch — the remaining recognized
kinds as well as the unrecognized else branch — returns `true` whenever it
returns at all. -/
theorem c4_continue_false_iff_terminal (cfg : ExecCfg) (a : Action)
    (els : List UIElement) (mons : List MssMonitor) :
    (ActionExecutor.execute cfg a els mons).result = .ok false
      ↔ (a.action_type = "status" ∨ a.action_type = "answer") := by
  constructor
  · intro h
    by_contra hn
    push_neg at hn
    obtain ⟨h1, h2⟩ := hn
    refine execute_never_false cfg a els mons ?_ ?_ h
    · intro hs
      rcases classify_name a.action_type with hu | hn2
      · rw [hs] at hu; simp at hu
      · rw [hs] at hn2; exact h1 hn2
    · intro hs
      rcases classify_name a.action_type with hu | hn2
      · rw [hs] at hu; simp at hu
      · rw [hs] at hn2; exact h2 hn2
  · intro h
    refine execute_terminal cfg a els mons ?_
    rcases h with h | h
    · exact Or.inl (by rw [h]; rfl)
    · exact Or.inr (by rw [h]; rfl)

/-- C9: `execute` changes its action argument in the `user_response` field at
most — every other field always comes back unchanged; the whole action is
unchanged unless the kind is `ask_user` and an ask callback is installed, in
which case `user_response` is set to the callback's reply to the action's
question. -/
theorem c9_execute_mutates_only_user_response (cfg : ExecCfg) (a : Action)
    (els : List UIElement) (mons : List MssMonitor) :
    (ActionExecutor.execute cfg a els mons).action
      = { a with user_response :=
            (ActionExecutor.execute cfg a els mons).action.user_response }
    ∧ ((a.action_type ≠ "ask_user" ∨ cfg.ask_user_callback = none) →
        (ActionExecutor.execute cfg a els mons).action = a)
    ∧ (∀ cb, cfg.ask_user_callback = some cb → a.action_type = "ask_user" →
        (ActionExecutor.execute cfg a els mons).action
          = { a with user_response := some (cb (a.question.getD "Agent needs input")) }) := by
  refine ⟨execute_action_only_user_response cfg a els mons, ?_, ?_⟩
  · intro h
    refine execute_action_unchanged cfg a els mons ?_
    rcases h with h | h
    · left
      intro hc
      rcases classify_name a.action_type with hu | hn
      · rw [hc] at hu; simp at hu
      · rw [hc] at hn; exact h hn
    · exact Or.inr h
  · intro cb hcb hk
    exact execute_ask_user_sets_response cfg a els mons cb (by rw [hk]; rfl) hcb

/-- C9 witness: an `ask_user` action run with an always-"yes" callback comes
back with `user_response = some "yes"` and nothing else changed. -/
theorem c9_execute_mutates_only_user_response_witness :
    (ActionExecutor.execute askCfg askAction [] demoMonitors).action
      = { askAction with user_response := some "yes" } :=
  (c9_execute_mutates_only_user_response askCfg askAction [] demoMonitors).2.2
    (fun _ => "yes") rfl rfl


/-- Helper: a coordinate action whose index and screen offset both resolve
performs exactly a pointer move to the element centre translated to global
coordinates, followed by one click. -/
theorem execute_click_resolved (cfg : ExecCfg) (a : Action) (els : List UIElement)
    (mons : List MssMonitor) (cx cy ox oy : Int)
    (hk : ActionExecutor.classify a.action_type = .click)
    (hc : ActionExecutor.get_coords a els = .ok (cx, cy))
    (hoff : screen.get_screen_offset (ActionExecutor.get_screen cfg a) mons = .ok (ox, oy)) :
    ActionExecutor.execute cfg a els mons
      = ⟨.ok true, a, [.setPosition (cx + ox) (cy + oy), .clickButton "left" 1]⟩ := by
  unfold ActionExecutor.execute
  simp only [hk, hc]
  simp [mouse.click_at, mouse.click, mouse.get_button, mouse.to_global, hoff,
    Except.map, Bind.bind, Except.bind, pure, Except.pure]

/-- Helper: every dispatch branch that reaches `_get_coords` with an
out-of-range index propagates the `Invalid element index` error with an empty
primitive trace (for scroll, only once the direction field is present). -/
theorem execute_invalid_index (cfg : ExecCfg) (a : Action) (els : List UIElement)
    (mons : List MssMonitor) (i : Int)
    (hidx : a.index = some i)
    (hbad : ¬(0 ≤ i ∧ i < (els.length : Int)))
    (hk : a.action_type = "click" ∨ a.action_type = "double_click"
        ∨ a.action_type = "right_click" ∨ a.action_type = "drag"
        ∨ a.action_type = "input_text"
        ∨ (a.action_type = "scroll" ∧ a.direction.isSome)) :
    ActionExecutor.execute cfg a els mons = ⟨.error (.invalidIndex i), a, []⟩ := by
  have hc : ActionExecutor.get_coords a els = .error (.invalidIndex i) :=
    get_coords_invalid a els i hidx hbad
  unfold ActionExecutor.execute
  rcases hk with h | h | h | h | h | ⟨h, hd⟩
  · simp only [show ActionExecutor.classify a.action_type = .click by rw [h]; rfl, hc]
  · simp only [show ActionExecutor.classify a.action_type = .double_click by rw [h]; rfl, hc]
  · simp only [show ActionExecutor.classify a.action_type = .right_click by rw [h]; rfl, hc]
  · simp only [show ActionExecutor.classify a.action_type = .drag by rw [h]; rfl, hc]
  · simp only [show ActionExecutor.classify a.action_type = .input_text by rw [h]; rfl,
      hidx, hc]
  · obtain ⟨d, hdir⟩ := Option.isSome_iff_exists.mp hd
    simp only [show ActionExecutor.classify a.action_type = .scroll by rw [h]; rfl,
      hdir, hidx, hc]

/-- Helper: `input_text` with an index whose centre and screen offset resolve
clicks at the translated centre, sleeps 300 ms, then types the text. -/
theorem execute_input_text_with_index (cfg : ExecCfg) (a : Action)
    (els : List UIElement) (mons : List MssMonitor) (i cx cy ox oy : Int) (t : String)
    (hk : ActionExecutor.classify a.action_type = .input_text)
    (hidx : a.index = some i)
    (hc : ActionExecutor.get_coords a els = .ok (cx, cy))
    (hoff : screen.get_screen_offset (ActionExecutor.get_screen cfg a) mons = .ok (ox, oy))
    (ht : a.text = some t) :
    ActionExecutor.execute cfg a els mons
      = ⟨.ok true, a, [.setPosition (cx + ox) (cy + oy), .clickButton "left" 1,
          .sleepMs 300, .typeText t]⟩ := by
  unfold ActionExecutor.execute
  simp only [hk, hidx, hc, ht]
  simp [mouse.click_at, mouse.click, mouse.get_button, mouse.to_global, hoff,
    Except.map, Bind.bind, Except.bind, pure, Except.pure, keyboard.type_text]

/-- C1 counterexample: in the spec scenario the element whose `index` field is
2 sits at list position 1, and `_get_coords` indexes the element list
positionally — so `execute` on the two-element list with a click on index 2
raises `Invalid element index: 2` and performs no primitive call, instead of
clicking at (500, 400). -/
theorem c1_click_scenario_counterexample :
    ActionExecutor.execute { screen := 0 } { action_type := "click", index := some 2 }
        settingsElements demoMonitors
      = ⟨.error (.invalidIndex 2), { action_type := "click", index := some 2 }, []⟩ := rfl

/-- C1 (amended): element lookup is positional, so the scenario holds once the
element with centre (500, 400) sits at list position 2: the primitive call
then targets global (500 + offsetX, 400 + offsetY) of the configured monitor,
`execute` returns continue = true, and the step's done flag is false.  With
the two-element list as literally given, `execute` instead fails with
`InvalidIndex` (see the counterexample). -/
theorem c1_click_scenario_amended (e0 e1 e2 : UIElement) (s ox oy : Int)
    (mons : List MssMonitor)
    (hcen : e2.center = (500, 400))
    (hoff : screen.get_screen_offset s mons = .ok (ox, oy)) :
    ActionExecutor.execute { screen := s } { action_type := "click", index := some 2 }
        [e0, e1, e2] mons
      = ⟨.ok true, { action_type := "click", index := some 2 },
         [.setPosition (500 + ox) (400 + oy), .clickButton "left" 1]⟩
    ∧ step_done true "click" = false := by
  refine ⟨?_, rfl⟩
  refine execute_click_resolved _ _ _ _ 500 400 ox oy rfl ?_ hoff
  show ActionExecutor.get_coords { action_type := "click", index := some 2 } [e0, e1, e2]
      = .ok (500, 400)
  simp only [ActionExecutor.get_coords]
  rw [dif_pos (by simp)]
  show Except.ok e2.center = _
  rw [hcen]

/-- C1 (amended) witness: the scenario on screen 1 of the demo topology with
the Settings element at list position 2. -/
theorem c1_click_scenario_amended_witness :
    ActionExecutor.execute { screen := 1 } { action_type := "click", index := some 2 }
        [elStart, elSettings, elSettings] demoMonitors
      = ⟨.ok true, { action_type := "click", index := some 2 },
         [.setPosition (500 + 1920) (400 + 0), .clickButton "left" 1]⟩
    ∧ step_done true "click" = false :=
  c1_click_scenario_amended elStart elSettings elSettings 1 1920 0 demoMonitors rfl rfl

/-- C2 counterexample: a scroll action carrying an out-of-range index but no
direction is a coordinate-bearing action carrying an index, yet `execute`
fails with the attribute error from reading `direction` — not with
`InvalidIndex` — because the source reads `action.direction.lower()` before
the index check. -/
theorem c2_scroll_missing_direction_counterexample :
    (ActionExecutor.execute {} { action_type := "scroll", index := some 99 }
        settingsElements demoMonitors).result = .error .attributeErrorNone
    ∧ Err.attributeErrorNone ≠ .invalidIndex 99 :=
  ⟨rfl, by decide⟩

/-- C2 (amended): for an elements list of length N, any action carrying index
i with 0 <= i < N resolves positionally to `elements[i].center`; any
coordinate-bearing action (click, double_click, right_click, drag, input_text,
and scroll once its direction is present) carrying an index outside [0, N)
makes `execute` fail with `InvalidIndex` and an empty primitive trace — no
pointer move, click, or key injection.  A scroll missing its direction fails
with an attribute error before the index is checked (see the counterexample);
in every failing case no primitive call is made. -/
theorem c2_index_bounds (els : List UIElement) :
    (∀ (a : Action) (i : Int), a.index = some i → 0 ≤ i → i < (els.length : Int) →
      ∃ h : i.toNat < els.length,
        ActionExecutor.get_coords a els = .ok (els.get ⟨i.toNat, h⟩).center)
    ∧ (∀ (cfg : ExecCfg) (a : Action) (mons : List MssMonitor) (i : Int),
        a.index = some i → ¬(0 ≤ i ∧ i < (els.length : Int)) →
        (a.action_type = "click" ∨ a.action_type = "double_click"
          ∨ a.action_type = "right_click" ∨ a.action_type = "drag"
          ∨ a.action_type = "input_text"
          ∨ (a.action_type = "scroll" ∧ a.direction.isSome)) →
        ActionExecutor.execute cfg a els mons
          = ⟨.error (.invalidIndex i), a, []⟩) := by
  constructor
  · intro a i hidx h0 hN
    exact ⟨by omega, get_coords_valid a els i hidx h0 hN⟩
  · intro cfg a mons i hidx hbad hk
    exact execute_invalid_index cfg a els mons i hidx hbad hk

/-- C2 (amended) witness: on the two-element scenario list, index 1 resolves
to (500, 400), and a drag on index 5 fails with `InvalidIndex` and an empty
trace. -/
theorem c2_index_bounds_witness :
    ActionExecutor.get_coords { action_type := "click", index := some 1 } settingsElements
      = .ok (500, 400)
    ∧ ActionExecutor.execute {} { action_type := "drag", index := some 5 }
        settingsElements demoMonitors
      = ⟨.error (.invalidIndex 5), { action_type := "drag", index := some 5 }, []⟩ :=
  ⟨((c2_index_bounds settingsElements).1 _ 1 rfl (by decide) (by decide)).2,
   (c2_index_bounds settingsElements).2 {} _ demoMonitors 5 rfl (by decide)
     (Or.inr (Or.inr (Or.inr (Or.inl rfl))))⟩

/-- C3 counterexample: an `input_text` action carrying explicit x/y (a target)
but no element index injects the text at the current focus without any pointer
operation — the source clicks first only when `action.index` is present, so
the claimed click-then-type behaviour does not happen for x/y targets. -/
theorem c3_xy_target_not_clicked_counterexample :
    ActionExecutor.execute {} { action_type := "input_text", text := some "hi", x := some 10, y := some 20 } settingsElements demoMonitors
      = ⟨.ok true, { action_type := "input_text", text := some "hi", x := some 10, y := some 20 }, [.typeText "hi"]⟩ := rfl

/-- C3 (amended): `input_text` clicks first only when an element index is
present: with an index it clicks at the resolved centre, sleeps 300 ms, then
injects the text; with no index — even when explicit x/y coordinates are
present, which the branch ignores — it injects the text at the current focus
with no pointer operation. -/
theorem c3_input_text_clicks_only_with_index (cfg : ExecCfg) (a : Action)
    (els : List UIElement) (mons : List MssMonitor) (t : String)
    (hk : a.action_type = "input_text") (ht : a.text = some t) :
    (∀ i cx cy ox oy, a.index = some i →
      ActionExecutor.get_coords a els = .ok (cx, cy) →
      screen.get_screen_offset (ActionExecutor.get_screen cfg a) mons = .ok (ox, oy) →
      ActionExecutor.execute cfg a els mons
        = ⟨.ok true, a, [.setPosition (cx + ox) (cy + oy), .clickButton "left" 1,
            .sleepMs 300, .typeText t]⟩)
    ∧ (a.index = none →
      ActionExecutor.execute cfg a els mons = ⟨.ok true, a, [.typeText t]⟩) := by
  constructor
  · intro i cx cy ox oy hidx hc hoff
    exact execute_input_text_with_index cfg a els mons i cx cy ox oy t
      (by rw [hk]; rfl) hidx hc hoff ht
  · intro hnone
    unfold ActionExecutor.execute
    simp only [show ActionExecutor.classify a.action_type = .input_text by rw [hk]; rfl,
      hnone, ht, keyboard.type_text]

/-- C3 (amended) witness: `input_text` on element index 1 of the scenario list
clicks at (500, 400), sleeps, then types. -/
theorem c3_input_text_clicks_only_with_index_witness :
    ActionExecutor.execute {} { action_type := "input_text", index := some 1, text := some "hi" } settingsElements demoMonitors
      = ⟨.ok true, { action_type := "input_text", index := some 1, text := some "hi" },
         [.setPosition (500 + 0) (400 + 0), .clickButton "left" 1,
          .sleepMs 300, .typeText "hi"]⟩ :=
  (c3_input_text_clicks_only_with_index {} _ settingsElements demoMonitors "hi"
    rfl rfl).1 1 500 400 0 0 rfl rfl rfl

end M3A
